import Mathlib

/-!
# Verification of the PadMapper scraper core (`padmapper_scraper/web_scraper.py`)

This file shallowly embeds the extraction pipeline of the scraper:

* `parse_listing_details` — the listing parser (source lines 836-963),
* `extract_listing_urls` — browser discovery with the scroll loop (108-254),
* `get_listing_urls_fallback` — HTTP-only discovery (513-585),
* `is_protected_page` / `extract_listing_details` — protection detection
  and the browser fetch retry loop (256-342),
* `main` — the run coordinator (1009-1081).

Browser / network effects are modelled by explicit oracles: the anchors a
scroll iteration sees, the document height it observes, the page each fetch
attempt obtains, and the per-URL fetch outcome the coordinator gets.  Python
`set` iteration order is modelled by an arbitrary enumeration function
`setOrder`, constrained (where a claim needs it) to produce a permutation of
the inserted elements — which is all CPython guarantees, since string hashes
are randomized per process.
-/

set_option maxRecDepth 40000

namespace Scraper

/-- Containment of `pat` as a contiguous run inside `s`, on character lists. -/
def listContains (s pat : List Char) : Bool :=
  match s with
  | [] => pat.isEmpty
  | _ :: t => pat.isPrefixOf s || listContains t pat

/-- `pat in s` for Python strings: substring containment. -/
def strContains (s pat : String) : Bool :=
  listContains s.toList pat.toList

/-- `s.startswith(pre)` for Python strings. -/
def strStartsWith (s pre : String) : Bool :=
  pre.toList.isPrefixOf s.toList

/-- `s.lower()` for Python strings (ASCII case folding). -/
def strToLower (s : String) : String :=
  ⟨s.toList.map Char.toLower⟩

/-- Python `str(x)` applied to `dict.get(key)` of an integer field:
`None` renders as the string `"None"`, a number as its decimal digits. -/
def pyStrInt : Option Int → String
  | none => "None"
  | some n => toString n

/-- Python truthiness of an optional string (`None` and `""` are falsy). -/
def pyFalsyStr : Option String → Bool
  | none => true
  | some s => s = ""

/-- Python truthiness of an optional list (`None` and `[]` are falsy). -/
def pyFalsyList {α : Type} : Option (List α) → Bool
  | none => true
  | some l => l.isEmpty

/-- One floorplan entry of a listable, as the parser reads it from the
embedded JSON (`fp.get(...)` on lines 902-912): every key may be absent. -/
structure FloorplanSrc where
  id : Option Int
  name : Option String
  bedrooms : Option Int
  bathrooms : Option Int
  min_square_feet : Option Int
  max_square_feet : Option Int
  min_price : Option Int
  max_price : Option Int
  available_units_count : Option Int
deriving DecidableEq, Repr

/-- One unit entry of a listable (`unit.get(...)` on lines 918-934). -/
structure UnitSrc where
  floorplan_id : Option Int
  title : Option String
  bedrooms : Option Int
  bathrooms : Option Int
  square_feet : Option Int
  price : Option Int
  available_date : Option String
  is_available : Option Bool
  features : Option (List String)
  unit_amenities : Option (List String)
  min_lease_days : Option Int
  max_lease_days : Option Int
deriving DecidableEq, Repr

/-- One listable record of the embedded page state, restricted to the keys
`parse_listing_details` reads (lines 884-916). -/
structure Listable where
  listing_id : Option Int
  padmapper_url : Option String
  title : Option String
  address : Option String
  max_price : Option Int
  max_bedrooms : Option Int
  max_bathrooms : Option Int
  max_square_feet : Option Int
  short_description : Option String
  amenity_tags : Option (List String)
  image_ids : Option (List Int)
  floorplan_count : Option Int
  floorplans : Option (List FloorplanSrc)
  units : Option (List UnitSrc)
deriving DecidableEq, Repr

/-- The parsed `window.__PRELOADED_STATE__` object.  The parser reads
`state.get('listables', {})` and then the nested `'listables'` key
(lines 876-881); `none` models either key missing, `some []` an empty
listables collection. -/
structure PageState where
  listables : Option (List Listable)
deriving DecidableEq, Repr

/-- The acquired page content, abstracted to what the parser reads from it:
the embedded state (if a script block holds one that parses), and the text
of the three fallback selector probes (lines 940-954); `none` means the
selector matched no element. -/
structure PageContent where
  preloadedState : Option PageState
  fallbackTitle : Option String
  fallbackAddress : Option String
  fallbackAmenities : Option (List String)
deriving DecidableEq, Repr

/-- Lease-term bounds attached to an emitted unit (lines 931-934). -/
structure LeaseTerms where
  min_lease_days : Option Int
  max_lease_days : Option Int
deriving DecidableEq, Repr

/-- A unit child of the output record (lines 920-935). -/
structure UnitOut where
  floorplan_id : String
  title : Option String
  bedrooms : Option Int
  bathrooms : Option Int
  square_feet : Option Int
  price : Option Int
  available_date : Option String
  is_available : Bool
  features : List String
  unit_amenities : List String
  lease_terms : LeaseTerms
deriving DecidableEq, Repr

/-- A floorplan child of the output record (lines 902-912). -/
structure FloorplanOut where
  id : String
  name : Option String
  bedrooms : Option Int
  bathrooms : Option Int
  min_square_feet : Option Int
  max_square_feet : Option Int
  min_price : Option Int
  max_price : Option Int
  available_units_count : Int
deriving DecidableEq, Repr

/-- The listing dict built by `parse_listing_details` (lines 842-857).
A `none` value on an `Option` field models the key being absent (after
normalization) or holding Python `None` (before it). -/
structure PyListing where
  id : Option String
  url : Option String
  title : Option String
  price : Option String
  bedrooms : Option String
  bathrooms : Option String
  square_feet : Option String
  address : Option String
  description : Option String
  amenities : Option (List String)
  image_count : Option Int
  last_scraped : Option String
  available_units : Option (List UnitOut)
  floorplans : Option (List FloorplanOut)
deriving DecidableEq, Repr

/-- Mapping of one floorplan entry (lines 902-912): `id` is stringified,
`available_units_count` defaults to 0, the rest pass through. -/
def mkFloorplan (fp : FloorplanSrc) : FloorplanOut :=
  { id := pyStrInt fp.id
    name := fp.name
    bedrooms := fp.bedrooms
    bathrooms := fp.bathrooms
    min_square_feet := fp.min_square_feet
    max_square_feet := fp.max_square_feet
    min_price := fp.min_price
    max_price := fp.max_price
    available_units_count := fp.available_units_count.getD 0 }

/-- Mapping of one available unit (lines 920-935). -/
def mkUnit (u : UnitSrc) : UnitOut :=
  { floorplan_id := pyStrInt u.floorplan_id
    title := u.title
    bedrooms := u.bedrooms
    bathrooms := u.bathrooms
    square_feet := u.square_feet
    price := u.price
    available_date := u.available_date
    is_available := true
    features := u.features.getD []
    unit_amenities := u.unit_amenities.getD []
    lease_terms := { min_lease_days := u.min_lease_days
                     max_lease_days := u.max_lease_days } }

/-- Lines 874-882: the first listable of the preloaded state, when the state
was extracted, its `listables.listables` key exists and is non-empty. -/
def currentListing (c : PageContent) : Option Listable :=
  match c.preloadedState with
  | none => none
  | some st =>
    match st.listables with
    | some (l :: _) => some l
    | _ => none

/-- Lines 897-913: floorplans are expanded only when the listable carries a
`floorplan_count` key; with no current listing the initial `[]` survives. -/
def extractedFloorplans (c : PageContent) : List FloorplanOut :=
  match currentListing c with
  | some cur =>
    if cur.floorplan_count.isSome then (cur.floorplans.getD []).map mkFloorplan else []
  | none => []

/-- Lines 916-936: units whose `is_available` flag is true (absent defaults
to false), in order. -/
def extractedUnits (c : PageContent) : List UnitOut :=
  match currentListing c with
  | some cur =>
    ((cur.units.getD []).filter (fun u => u.is_available.getD false)).map mkUnit
  | none => []

/-- The listing dict right after the primary extraction path and before the
HTML fallback (lines 842-937), given the timestamp `now` produced by
`datetime.now().strftime(...)`. -/
def builtListing (now : String) (c : PageContent) : PyListing :=
  match currentListing c with
  | some cur =>
    { id := some (pyStrInt cur.listing_id)
      url := cur.padmapper_url
      title := cur.title
      price := some (pyStrInt cur.max_price)
      bedrooms := some (pyStrInt cur.max_bedrooms)
      bathrooms := some (pyStrInt cur.max_bathrooms)
      square_feet := some (pyStrInt cur.max_square_feet)
      address := cur.address
      description := cur.short_description
      amenities := some (cur.amenity_tags.getD [])
      image_count := some ((cur.image_ids.getD []).length : Int)
      last_scraped := some now
      available_units := some (extractedUnits c)
      floorplans := some (extractedFloorplans c) }
  | none =>
    { id := none
      url := none
      title := none
      price := none
      bedrooms := none
      bathrooms := none
      square_feet := none
      address := none
      description := none
      amenities := some []
      image_count := some 0
      last_scraped := some now
      available_units := some (extractedUnits c)
      floorplans := some (extractedFloorplans c) }

/-- Lines 940-943: for a falsy title, probe the document; a matching
element overwrites the field, otherwise the old value stays. -/
def titleFallbackStep (c : PageContent) (l : PyListing) : PyListing :=
  if pyFalsyStr l.title then
    match c.fallbackTitle with | some t => { l with title := some t } | none => l
  else l

/-- Lines 945-948: the same for the address. -/
def addressFallbackStep (c : PageContent) (l : PyListing) : PyListing :=
  if pyFalsyStr l.address then
    match c.fallbackAddress with | some a => { l with address := some a } | none => l
  else l

/-- Lines 950-954: the same for the amenity list. -/
def amenitiesFallbackStep (c : PageContent) (l : PyListing) : PyListing :=
  if pyFalsyList l.amenities then
    match c.fallbackAmenities with | some am => { l with amenities := some am } | none => l
  else l

/-- Lines 939-954: the HTML-selector fallback chain for the three fields it
covers. -/
def applyFallbacks (c : PageContent) (l : PyListing) : PyListing :=
  amenitiesFallbackStep c (addressFallbackStep c (titleFallbackStep c l))

/-- Normalization of one string-valued entry at line 957: the key is dropped
(`none`) when the value is Python `None` or the empty string. -/
def dropEmptyStr : Option String → Option String
  | none => none
  | some s => if s = "" then none else some s

/-- Normalization of one list-valued entry at line 957: dropped when the
value is `None` or the empty list. -/
def dropEmptyList {α : Type} : Option (List α) → Option (List α)
  | none => none
  | some l => if l.isEmpty then none else some l

/-- Line 957: `{k: v for k, v in listing.items() if v is not None and
v != [] and v != ''}`.  An integer value (`image_count`) is only dropped
when it is `None`; `0` is kept because `0 != ''` and `0 != []` in Python. -/
def cleanupListing (l : PyListing) : PyListing :=
  { id := dropEmptyStr l.id
    url := dropEmptyStr l.url
    title := dropEmptyStr l.title
    price := dropEmptyStr l.price
    bedrooms := dropEmptyStr l.bedrooms
    bathrooms := dropEmptyStr l.bathrooms
    square_feet := dropEmptyStr l.square_feet
    address := dropEmptyStr l.address
    description := dropEmptyStr l.description
    amenities := dropEmptyList l.amenities
    image_count := l.image_count
    last_scraped := dropEmptyStr l.last_scraped
    available_units := dropEmptyList l.available_units
    floorplans := dropEmptyList l.floorplans }

/-- `parse_listing_details` (lines 836-963).  After normalization, line 959
reads `listing['available_units']` and `listing['floorplans']`; if either key
was dropped the `KeyError` is caught by the enclosing handler, which returns
`None` — modelled by the final match. -/
def parse_listing_details (now : String) (c : PageContent) : Option PyListing :=
  let cleaned := cleanupListing (applyFallbacks c (builtListing now c))
  match cleaned.available_units, cleaned.floorplans with
  | some _, some _ => some cleaned
  | _, _ => none

/-! ## Discovery: `extract_listing_urls` (lines 108-254) -/

/-- Python truthiness of the `limit` argument: `if limit:` is false for
`None` and for `0`. -/
def limitTruthy : Option Nat → Bool
  | none => false
  | some l => l ≠ 0

/-- Line 180 while condition:
`(limit is None or len(listing_urls) < limit) and scroll_attempts < max_scroll_attempts`. -/
def whileCond (limit : Option Nat) (urlCount attempts : Nat) : Bool :=
  (match limit with | none => true | some l => urlCount < l) && attempts < 10

/-- Lines 196-200: keep anchors that have an href starting with
`/apartments/` and absolutize them. -/
def browserHrefUrls (anchors : List (Option String)) : List String :=
  anchors.filterMap fun a =>
    match a with
    | none => none
    | some h => if strStartsWith h "/apartments/" then
        some ("https://www.padmapper.com" ++ h) else none

/-- Adding URLs to the Python set `listing_urls`, represented as its
insertion-ordered duplicate-free element list. -/
def insertUrls (acc : List String) (new : List String) : List String :=
  new.foldl (fun a u => if u ∈ a then a else a ++ [u]) acc

/-- State of the scroll loop: the URL set (insertion-ordered element list),
`previous_height`, `scroll_attempts`, and whether the loop has ended. -/
structure ScrollState where
  urls : List String
  prevHeight : Int
  attempts : Nat
  stopped : Bool
deriving DecidableEq, Repr

/-- One pass of the scroll loop (lines 180-225): re-check the while
condition, collect anchors into the set, compare the document height —
unchanged height increments `scroll_attempts` (breaking at 10), growth
resets it to 0 — then break if a truthy limit is reached. -/
def scrollStep (anchors : List (Option String)) (h : Int) (limit : Option Nat)
    (s : ScrollState) : ScrollState :=
  if s.stopped then s
  else if !whileCond limit s.urls.length s.attempts then { s with stopped := true }
  else
    let urls := insertUrls s.urls (browserHrefUrls anchors)
    if h = s.prevHeight then
      let a := s.attempts + 1
      if a ≥ 10 then { urls := urls, prevHeight := s.prevHeight, attempts := a, stopped := true }
      else
        { urls := urls, prevHeight := s.prevHeight, attempts := a,
          stopped := limitTruthy limit && (match limit with | some l => urls.length ≥ l | none => false) }
    else
      { urls := urls, prevHeight := h, attempts := 0,
        stopped := limitTruthy limit && (match limit with | some l => urls.length ≥ l | none => false) }

/-- The scroll loop run for `fuel` passes starting at iteration index `i`;
`links`/`heights` are the anchors found and the document height observed at
each iteration.  A state with `stopped = false` after the fuel is spent
means the Python loop is still running. -/
def scrollLoopAux (links : Nat → List (Option String)) (heights : Nat → Int)
    (limit : Option Nat) : Nat → Nat → ScrollState → ScrollState
  | 0, _, s => s
  | fuel + 1, i, s =>
    if s.stopped then s
    else scrollLoopAux links heights limit fuel (i + 1) (scrollStep (links i) (heights i) limit s)

/-- The scroll-loop state reached from the initial document height `h0`
(line 174) with an empty URL set and a zero stall counter. -/
def scrollLoopState (links : Nat → List (Option String)) (heights : Nat → Int)
    (limit : Option Nat) (h0 : Int) (fuel : Nat) : ScrollState :=
  scrollLoopAux links heights limit fuel 0 { urls := [], prevHeight := h0, attempts := 0, stopped := false }

/-- Lines 242-244: `if limit: result = result[:limit]`. -/
def pyTruncate (limit : Option Nat) (l : List String) : List String :=
  if limitTruthy limit then l.take (limit.getD 0) else l

/-- `extract_listing_urls` (lines 108-254), from the loop on.  `setOrder`
models `list(listing_urls)` — the enumeration order of a Python set, an
arbitrary permutation of its elements.  Returns `none` when the loop has
not ended within `fuel` passes (the Python call has not returned yet). -/
def extract_listing_urls (setOrder : List String → List String)
    (links : Nat → List (Option String)) (heights : Nat → Int)
    (limit : Option Nat) (h0 : Int) (fuel : Nat) : Option (List String) :=
  let s := scrollLoopState links heights limit h0 fuel
  if s.stopped then some (pyTruncate limit (setOrder s.urls)) else none

/-! ## Discovery fallback: `get_listing_urls_fallback` (lines 513-585) -/

/-- The insertion-ordered duplicate-free element list of `set(l)`. -/
def dedupList (l : List String) : List String :=
  insertUrls [] l

/-- Lines 565-571: keep anchors whose href mentions `/apartments/` or
`/buildings/`; absolutize relative hrefs. -/
def fallbackHrefUrls (anchors : List (Option String)) : List String :=
  anchors.filterMap fun a =>
    match a with
    | none => none
    | some h =>
      if strContains h "/apartments/" || strContains h "/buildings/" then
        some (if strStartsWith h "/" then "https://www.padmapper.com" ++ h else h)
      else none

/-- `get_listing_urls_fallback` (lines 513-585): collect matching anchor
URLs (the selector passes concatenated, duplicates included), dedup via
`list(set(...))` (line 574), then truncate when the limit is truthy.
`anchors` is every `link.get('href')` the selectors produced, in order. -/
def get_listing_urls_fallback (setOrder : List String → List String)
    (anchors : List (Option String)) (limit : Option Nat) : List String :=
  pyTruncate limit (setOrder (dedupList (fallbackHrefUrls anchors)))

/-! ## Protection detection and the browser fetch (lines 256-342) -/

/-- The rendered page a fetch attempt observes, abstracted to what
`extract_listing_details` and `is_protected_page` read from it. -/
structure DetailPage where
  /-- line 278: the wait for `body` timed out on this attempt. -/
  loadTimedOut : Bool
  /-- line 340: `driver.find_elements` raised, so the check itself failed. -/
  checkError : Bool
  /-- XPath indicator: `h1` containing `Please verify you are a human`. -/
  hasVerifyHumanH1 : Bool
  /-- XPath indicator: `title` containing `Security Check`. -/
  hasSecurityCheckTitle : Bool
  /-- XPath indicator: `div` with class `cf-browser-verification`. -/
  hasCfBrowserVerification : Bool
  /-- XPath indicator: `div` with id `challenge-running`. -/
  hasChallengeRunning : Bool
  /-- `driver.page_source`. -/
  source : String
  /-- The same page as the parser sees it. -/
  content : PageContent

/-- `is_protected_page` (lines 319-342): any XPath indicator, `"cf-"` in the
source, or `"cloudflare"` in the lower-cased source, returns true; a failure
of the check itself is treated as protected. -/
def is_protected_page (p : DetailPage) : Bool :=
  if p.checkError then true
  else
    p.hasVerifyHumanH1 || p.hasSecurityCheckTitle || p.hasCfBrowserVerification ||
      p.hasChallengeRunning || strContains p.source "cf-" ||
      strContains (strToLower p.source) "cloudflare"

/-- Outcome of one `extract_listing_details` call: how many attempts ran,
which retry sleeps were taken (seconds), and the returned value. -/
structure FetchOutcome where
  attemptsMade : Nat
  retrySleeps : List Nat
  result : Option PyListing
deriving DecidableEq, Repr

/-- The retry loop of `extract_listing_details` (lines 267-309):
`max_retries = 3`, `retry_delay = 5`, `wait_time = (attempt + 1) * 5`.
A timeout or a detected protection sleeps `wait_time` and retries while
attempts remain; on the last attempt the raised exception is caught by the
outer handler, which returns `None`.  `pages i` is the page attempt `i`
observes. -/
def fetchAux (now : String) (pages : Nat → DetailPage) :
    Nat → Nat → List Nat → FetchOutcome
  | 0, attempt, sleeps => { attemptsMade := attempt, retrySleeps := sleeps, result := none }
  | rem + 1, attempt, sleeps =>
    let p := pages attempt
    let wait := (attempt + 1) * 5
    if p.loadTimedOut then
      if attempt < 2 then fetchAux now pages rem (attempt + 1) (sleeps ++ [wait])
      else { attemptsMade := attempt + 1, retrySleeps := sleeps, result := none }
    else if is_protected_page p then
      if attempt < 2 then fetchAux now pages rem (attempt + 1) (sleeps ++ [wait])
      else { attemptsMade := attempt + 1, retrySleeps := sleeps, result := none }
    else
      { attemptsMade := attempt + 1, retrySleeps := sleeps,
        result := parse_listing_details now p.content }

/-- `extract_listing_details` (lines 256-317): up to 3 attempts. -/
def extract_listing_details (now : String) (pages : Nat → DetailPage) : FetchOutcome :=
  fetchAux now pages 3 0 []

/-! ## Run coordinator: `main` (lines 1009-1081) -/

/-- The per-URL loop of `main` (lines 1032-1062): each URL yields at most
one listing via its fetch/parse pipeline (`fetch url = none` for a failed
fetch or parse, which line 1060 catches and skips); successes are appended
in order. -/
def processListings (fetch : String → Option PyListing) : List String → List PyListing
  | [] => []
  | url :: rest =>
    match fetch url with
    | some l => l :: processListings fetch rest
    | none => processListings fetch rest

/-- `main` (lines 1009-1081): returns `False` exactly on an empty URL set
(line 1025); otherwise processes every URL, persists the batch, and returns
`True`.  The result pairs the boolean with the persisted batch. -/
def mainRun (urls : List String) (fetch : String → Option PyListing) :
    Bool × List PyListing :=
  if urls.isEmpty then (false, [])
  else (true, processListings fetch urls)

/-! ## Concrete inputs used by witnesses and counterexamples -/

/-- The all-absent listing dict (used as a `getD` default). -/
def noneListing : PyListing :=
  { id := none, url := none, title := none, price := none, bedrooms := none,
    bathrooms := none, square_feet := none, address := none, description := none,
    amenities := none, image_count := none, last_scraped := none,
    available_units := none, floorplans := none }

/-- A sample floorplan entry. -/
def fpA : FloorplanSrc :=
  ⟨some 11, some "A1", some 1, some 1, some 500, some 600, some 2000, some 2400, some 3⟩

/-- A second sample floorplan entry. -/
def fpB : FloorplanSrc :=
  ⟨some 12, some "B2", some 2, some 2, some 800, some 900, some 2800, some 3200, some 1⟩

/-- A sample available unit. -/
def unitA : UnitSrc :=
  ⟨some 11, some "U101", some 1, some 1, some 550, some 2100, some "2026-11-01",
    some true, some ["view"], some ["ac"], some 180, some 365⟩

/-- A second sample available unit. -/
def unitB : UnitSrc :=
  ⟨some 12, some "U201", some 2, some 2, some 850, some 3000, some "2026-12-01",
    some true, some [], some [], some 180, some 365⟩

/-- A sample unit with `is_available = false`. -/
def unitC : UnitSrc :=
  ⟨some 12, some "U202", some 2, some 2, some 850, some 3100, none,
    some false, some [], some [], some 180, some 365⟩

/-- A fully-populated listable: `max_price = 2500`, `max_bedrooms = 2`,
2 floorplans, 3 units of which one is unavailable. -/
def okListable : Listable :=
  { listing_id := some 777, padmapper_url := some "https://www.padmapper.com/buildings/p777",
    title := some "Tower", address := some "1 Main St",
    max_price := some 2500, max_bedrooms := some 2, max_bathrooms := some 2,
    max_square_feet := some 900, short_description := some "nice",
    amenity_tags := some ["pool"], image_ids := some [1, 2, 3],
    floorplan_count := some 2, floorplans := some [fpA, fpB],
    units := some [unitA, unitB, unitC] }

/-- Content embedding `okListable` as the only listable. -/
def okContent : PageContent := ⟨some ⟨some [okListable]⟩, none, none, none⟩

/-- The listable of the C2 counterexample: identical to `okListable` but
with no `max_price` key. -/
def noPriceListable : Listable := { okListable with max_price := none }

/-- Content embedding `noPriceListable`. -/
def noPriceContent : PageContent := ⟨some ⟨some [noPriceListable]⟩, none, none, none⟩

/-- Content with no embedded state object but with fallback-selector hits. -/
def noStateContent : PageContent :=
  ⟨none, some "Fallback Title", some "1 Side St", some ["gym"]⟩

/-- The listable of the C5 counterexample: floorplan entries are present but
the `floorplan_count` key is absent. -/
def noCountListable : Listable := { okListable with floorplan_count := none }

/-- Content embedding `noCountListable`. -/
def noCountContent : PageContent := ⟨some ⟨some [noCountListable]⟩, none, none, none⟩

/-- First discovered URL of the discovery runs below. -/
def urlA : String := "https://www.padmapper.com/apartments/a"

/-- Second discovered URL of the discovery runs below. -/
def urlB : String := "https://www.padmapper.com/apartments/b"

/-- Anchors each scroll iteration sees: a duplicated href, a second href, a
missing href and a non-listing href. -/
def dupLinks : Nat → List (Option String) :=
  fun _ => [some "/apartments/a", some "/apartments/a", some "/apartments/b",
            none, some "/other"]

/-- A constant document height: every iteration stalls. -/
def flatHeights : Nat → Int := fun _ => 100

/-- The page every fetch attempt of the C9 witness observes: loads fine, no
XPath indicator fires, but the source mentions Cloudflare. -/
def protPage : DetailPage :=
  { loadTimedOut := false, checkError := false, hasVerifyHumanH1 := false,
    hasSecurityCheckTitle := false, hasCfBrowserVerification := false,
    hasChallengeRunning := false, source := "Checking your browser - Cloudflare",
    content := noStateContent }

/-- Anchors for the fallback-discovery witnesses: one duplicated listing
href, one building href, one non-listing href and one missing href. -/
def dupAnchors : List (Option String) :=
  [some "/apartments/x", some "/apartments/x", some "/buildings/p9", some "nope", none]

/-- Five discovered URLs for the coordinator witnesses. -/
def fiveUrls : List String := ["u1", "u2", "u3", "u4", "u5"]

/-- A fetch oracle for which exactly the third URL fails. -/
def oneFailFetch : String → Option PyListing :=
  fun u => if u = "u3" then none else some noneListing

/-- The record `parse_listing_details` produces for `okContent`. -/
def parsedOk : PyListing :=
  { id := some "777", url := some "https://www.padmapper.com/buildings/p777",
    title := some "Tower", price := some "2500", bedrooms := some "2",
    bathrooms := some "2", square_feet := some "900", address := some "1 Main St",
    description := some "nice", amenities := some ["pool"], image_count := some 3,
    last_scraped := some "2026-10-12 00:00:00",
    available_units := some [mkUnit unitA, mkUnit unitB],
    floorplans := some [mkFloorplan fpA, mkFloorplan fpB] }

/-- A mid-loop scroll state: one URL collected, stall counter at 3. -/
def stallState : ScrollState :=
  { urls := [urlA], prevHeight := 100, attempts := 3, stopped := false }

/-- The absolute-iteration-ceiling property claimed of the scroll loop:
some fixed pass count `C` after which the loop has always ended, whatever
anchors and heights the page serves (with no limit given). -/
def scrollLoopAbsoluteCeiling : Prop :=
  ∃ C : Nat, ∀ (links : Nat → List (Option String)) (heights : Nat → Int) (h0 : Int),
    (scrollLoopState links heights none h0 C).stopped = true

/-! ## Helper lemmas -/

theorem dropEmptyStr_ne_empty (x : Option String) : dropEmptyStr x ≠ some "" := by
  match x with
  | none => simp [dropEmptyStr]
  | some s =>
    by_cases hs : s = "" <;> simp [dropEmptyStr, hs]

theorem dropEmptyList_ne_nil {α : Type} (x : Option (List α)) : dropEmptyList x ≠ some [] := by
  match x with
  | none => simp [dropEmptyList]
  | some l =>
    match l with
    | [] => simp [dropEmptyList]
    | a :: t => simp [dropEmptyList]

theorem dropEmptyList_eq_some {α : Type} {x : Option (List α)} {l : List α}
    (h : dropEmptyList x = some l) : x = some l := by
  match x with
  | none => simp [dropEmptyList] at h
  | some m =>
    match m with
    | [] => simp [dropEmptyList] at h
    | a :: t => simpa [dropEmptyList] using h

theorem builtListing_units (now : String) (c : PageContent) :
    (builtListing now c).available_units = some (extractedUnits c) := by
  cases hc : currentListing c <;> simp [builtListing, hc]

theorem builtListing_floorplans (now : String) (c : PageContent) :
    (builtListing now c).floorplans = some (extractedFloorplans c) := by
  cases hc : currentListing c <;> simp [builtListing, hc]

theorem titleFallbackStep_fields (c : PageContent) (l : PyListing) :
    (titleFallbackStep c l).price = l.price ∧ (titleFallbackStep c l).bedrooms = l.bedrooms ∧
    (titleFallbackStep c l).available_units = l.available_units ∧
    (titleFallbackStep c l).floorplans = l.floorplans := by
  unfold titleFallbackStep
  split
  · cases c.fallbackTitle <;> exact ⟨rfl, rfl, rfl, rfl⟩
  · exact ⟨rfl, rfl, rfl, rfl⟩

theorem addressFallbackStep_fields (c : PageContent) (l : PyListing) :
    (addressFallbackStep c l).price = l.price ∧ (addressFallbackStep c l).bedrooms = l.bedrooms ∧
    (addressFallbackStep c l).available_units = l.available_units ∧
    (addressFallbackStep c l).floorplans = l.floorplans := by
  unfold addressFallbackStep
  split
  · cases c.fallbackAddress <;> exact ⟨rfl, rfl, rfl, rfl⟩
  · exact ⟨rfl, rfl, rfl, rfl⟩

theorem amenitiesFallbackStep_fields (c : PageContent) (l : PyListing) :
    (amenitiesFallbackStep c l).price = l.price ∧ (amenitiesFallbackStep c l).bedrooms = l.bedrooms ∧
    (amenitiesFallbackStep c l).available_units = l.available_units ∧
    (amenitiesFallbackStep c l).floorplans = l.floorplans := by
  unfold amenitiesFallbackStep
  split
  · cases c.fallbackAmenities <;> exact ⟨rfl, rfl, rfl, rfl⟩
  · exact ⟨rfl, rfl, rfl, rfl⟩

theorem applyFallbacks_fields (c : PageContent) (l : PyListing) :
    (applyFallbacks c l).price = l.price ∧ (applyFallbacks c l).bedrooms = l.bedrooms ∧
    (applyFallbacks c l).available_units = l.available_units ∧
    (applyFallbacks c l).floorplans = l.floorplans := by
  unfold applyFallbacks
  obtain ⟨t1, t2, t3, t4⟩ := titleFallbackStep_fields c l
  obtain ⟨a1, a2, a3, a4⟩ := addressFallbackStep_fields c (titleFallbackStep c l)
  obtain ⟨m1, m2, m3, m4⟩ :=
    amenitiesFallbackStep_fields c (addressFallbackStep c (titleFallbackStep c l))
  exact ⟨by rw [m1, a1, t1], by rw [m2, a2, t2], by rw [m3, a3, t3], by rw [m4, a4, t4]⟩

theorem parse_some_elim {now : String} {c : PageContent} {l : PyListing}
    (h : parse_listing_details now c = some l) :
    l = cleanupListing (applyFallbacks c (builtListing now c)) := by
  unfold parse_listing_details at h
  dsimp only at h
  split at h
  · exact (Option.some.inj h).symm
  · exact Option.noConfusion h

theorem processListings_length_add (fetch : String → Option PyListing) (urls : List String) :
    (processListings fetch urls).length +
      (urls.filter (fun u => (fetch u).isNone)).length = urls.length := by
  induction urls with
  | nil => rfl
  | cons u rest ih =>
    cases hf : fetch u with
    | some v =>
      have h1 : processListings fetch (u :: rest) = v :: processListings fetch rest := by
        simp [processListings, hf]
      have h2 : (u :: rest).filter (fun u => (fetch u).isNone) =
          rest.filter (fun u => (fetch u).isNone) := by
        simp [List.filter_cons, hf]
      rw [h1, h2, List.length_cons, List.length_cons]
      omega
    | none =>
      have h1 : processListings fetch (u :: rest) = processListings fetch rest := by
        simp [processListings, hf]
      have h2 : (u :: rest).filter (fun u => (fetch u).isNone) =
          u :: rest.filter (fun u => (fetch u).isNone) := by
        simp [List.filter_cons, hf]
      rw [h1, h2, List.length_cons, List.length_cons]
      omega

theorem processListings_eq_filtered (fetch : String → Option PyListing) (urls : List String) :
    processListings fetch urls =
      (urls.filter (fun u => (fetch u).isSome)).map (fun u => (fetch u).getD noneListing) := by
  induction urls with
  | nil => rfl
  | cons u rest ih =>
    cases hf : fetch u <;> simp [processListings, hf, List.filter_cons, ih]

theorem nodup_insertUrls (new : List String) :
    ∀ acc : List String, acc.Nodup → (insertUrls acc new).Nodup := by
  induction new with
  | nil => exact fun acc h => h
  | cons u rest ih =>
    intro acc h
    show (insertUrls (if u ∈ acc then acc else acc ++ [u]) rest).Nodup
    by_cases hu : u ∈ acc
    · simpa [hu] using ih acc h
    · have happ : (acc ++ [u]).Nodup := by
        simp [List.nodup_append, h, hu]
      simpa [hu] using ih (acc ++ [u]) happ

theorem scrollStep_nodup (anchors : List (Option String)) (h : Int) (limit : Option Nat)
    (s : ScrollState) (hn : s.urls.Nodup) : (scrollStep anchors h limit s).urls.Nodup := by
  unfold scrollStep
  dsimp only
  repeat' split
  all_goals first | exact hn | exact nodup_insertUrls _ _ hn

theorem scrollLoopAux_nodup (links : Nat → List (Option String)) (heights : Nat → Int)
    (limit : Option Nat) :
    ∀ (fuel i : Nat) (s : ScrollState), s.urls.Nodup →
      (scrollLoopAux links heights limit fuel i s).urls.Nodup := by
  intro fuel
  induction fuel with
  | zero => exact fun i s hn => hn
  | succ n ih =>
    intro i s hn
    unfold scrollLoopAux
    split
    · exact hn
    · exact ih (i + 1) _ (scrollStep_nodup _ _ _ _ hn)

theorem growLoop_runs :
    ∀ (fuel i : Nat) (p : Int), p ≠ (i : Int) + 1 →
      (scrollLoopAux (fun _ => []) (fun j => (j : Int) + 1) none fuel i
        { urls := [], prevHeight := p, attempts := 0, stopped := false }).stopped = false := by
  intro fuel
  induction fuel with
  | zero => intro i p _; rfl
  | succ n ih =>
    intro i p hp
    have hstep : scrollStep [] ((i : Int) + 1) none
        { urls := [], prevHeight := p, attempts := 0, stopped := false } =
        { urls := [], prevHeight := (i : Int) + 1, attempts := 0, stopped := false } := by
      unfold scrollStep whileCond limitTruthy browserHrefUrls insertUrls
      simp [Ne.symm hp]
    unfold scrollLoopAux
    simp only [Bool.false_eq_true, if_false, hstep]
    have := ih (i + 1) ((i : Int) + 1) (by push_cast; omega)
    simpa using this

theorem parse_none_of_empty_extracts (now : String) (c : PageContent)
    (h : extractedUnits c = [] ∨ extractedFloorplans c = []) :
    parse_listing_details now c = none := by
  unfold parse_listing_details
  dsimp only
  have hu : (applyFallbacks c (builtListing now c)).available_units = some (extractedUnits c) := by
    rw [(applyFallbacks_fields c (builtListing now c)).2.2.1, builtListing_units]
  have hf : (applyFallbacks c (builtListing now c)).floorplans = some (extractedFloorplans c) := by
    rw [(applyFallbacks_fields c (builtListing now c)).2.2.2, builtListing_floorplans]
  rcases h with h | h
  · have hnone : (cleanupListing (applyFallbacks c (builtListing now c))).available_units = none := by
      simp [cleanupListing, hu, h, dropEmptyList]
    split
    next a b heq1 heq2 => rw [hnone] at heq1; exact Option.noConfusion heq1
    next => rfl
  · have hnone : (cleanupListing (applyFallbacks c (builtListing now c))).floorplans = none := by
      simp [cleanupListing, hf, h, dropEmptyList]
    split
    next a b heq1 heq2 => rw [hnone] at heq2; exact Option.noConfusion heq2
    next => rfl

/-! ## Claims -/

/-- Claim C1: `main(limit, strategy)` returns a boolean that is false exactly
when the discovered-URL set is empty; with a non-empty discovery the run
succeeds regardless of per-listing failures, and a run over 5 discovered
URLs where exactly one fetch fails persists a batch of exactly 4 listings
and returns success. -/
theorem claim_C1_run_exit_semantics (urls : List String)
    (fetch : String → Option PyListing) :
    ((mainRun urls fetch).1 = false ↔ urls = []) ∧
    (urls.length = 5 → (urls.filter (fun u => (fetch u).isNone)).length = 1 →
      (mainRun urls fetch).1 = true ∧ (mainRun urls fetch).2.length = 4) := by
  constructor
  · cases urls with
    | nil => simp [mainRun]
    | cons a t => simp [mainRun]
  · intro h5 h1
    cases urls with
    | nil => simp at h5
    | cons a t =>
      have hadd := processListings_length_add fetch (a :: t)
      constructor
      · simp [mainRun]
      · simp only [mainRun, List.isEmpty_cons, if_false, Bool.false_eq_true]
        rw [h5] at hadd
        rw [h1] at hadd
        omega

/-- Witness for C1: a concrete run over 5 URLs where exactly the third
fetch fails. -/
theorem claim_C1_witness :
    (mainRun fiveUrls oneFailFetch).1 = true ∧
    (mainRun fiveUrls oneFailFetch).2.length = 4 :=
  (claim_C1_run_exit_semantics fiveUrls oneFailFetch).2 rfl rfl

/-- Counterexample to C2: for a listable with no `max_price` key the parser
stores the placeholder string `"None"` in the returned record's price field
(line 889 stringifies the absent value before normalization), instead of
omitting the field. -/
theorem claim_C2_counterexample :
    noPriceListable.max_price = none ∧
    (parse_listing_details "t" noPriceContent).map PyListing.price = some (some "None") :=
  ⟨rfl, rfl⟩

/-- Claim C2 (amended): every field whose value is absent, an empty string,
or an empty collection at normalization time is omitted from the returned
record; however the id, price, bedrooms, bathrooms and square-feet fields
are stringified before normalization, so an absent source value appears in
them as the string `"None"` rather than being omitted.  The theorem states
the normalization guarantee: no returned record carries an empty-string or
empty-collection field value. -/
theorem claim_C2_amended_no_empty_fields (now : String) (c : PageContent)
    (l : PyListing) (h : parse_listing_details now c = some l) :
    l.id ≠ some "" ∧ l.url ≠ some "" ∧ l.title ≠ some "" ∧ l.price ≠ some "" ∧
    l.bedrooms ≠ some "" ∧ l.bathrooms ≠ some "" ∧ l.square_feet ≠ some "" ∧
    l.address ≠ some "" ∧ l.description ≠ some "" ∧ l.last_scraped ≠ some "" ∧
    l.amenities ≠ some [] ∧ l.available_units ≠ some [] ∧ l.floorplans ≠ some [] := by
  have hl := parse_some_elim h
  subst hl
  exact ⟨dropEmptyStr_ne_empty _, dropEmptyStr_ne_empty _, dropEmptyStr_ne_empty _,
    dropEmptyStr_ne_empty _, dropEmptyStr_ne_empty _, dropEmptyStr_ne_empty _,
    dropEmptyStr_ne_empty _, dropEmptyStr_ne_empty _, dropEmptyStr_ne_empty _,
    dropEmptyStr_ne_empty _, dropEmptyList_ne_nil _, dropEmptyList_ne_nil _,
    dropEmptyList_ne_nil _⟩

/-- Witness for the amended C2, at a fully-populated concrete page. -/
theorem claim_C2_witness :
    parsedOk.id ≠ some "" ∧ parsedOk.url ≠ some "" ∧ parsedOk.title ≠ some "" ∧
    parsedOk.price ≠ some "" ∧ parsedOk.bedrooms ≠ some "" ∧
    parsedOk.bathrooms ≠ some "" ∧ parsedOk.square_feet ≠ some "" ∧
    parsedOk.address ≠ some "" ∧ parsedOk.description ≠ some "" ∧
    parsedOk.last_scraped ≠ some "" ∧ parsedOk.amenities ≠ some [] ∧
    parsedOk.available_units ≠ some [] ∧ parsedOk.floorplans ≠ some [] :=
  claim_C2_amended_no_empty_fields "2026-10-12 00:00:00" okContent parsedOk rfl

/-- Claim C4: after dropping empty-valued fields, line 959 unconditionally
reads the `available_units` and `floorplans` keys, so whenever either
extracted list is empty — in particular for any content with no embedded
state object — `parse_listing_details` returns none, even when other fields
were successfully extracted. -/
theorem claim_C4_parse_none_on_empty_lists (now : String) (c : PageContent)
    (h : extractedUnits c = [] ∨ extractedFloorplans c = []) :
    parse_listing_details now c = none :=
  parse_none_of_empty_extracts now c h

/-- Witness for C4: content with no embedded state but with fallback
selector hits still parses to none. -/
theorem claim_C4_witness :
    (extractedUnits noStateContent = [] ∨ extractedFloorplans noStateContent = []) ∧
    noStateContent.fallbackTitle = some "Fallback Title" ∧
    parse_listing_details "t" noStateContent = none :=
  ⟨Or.inl rfl, rfl, claim_C4_parse_none_on_empty_lists "t" noStateContent (Or.inl rfl)⟩

/-- Counterexample to C5: a listable that contains 2 floorplan entries and
3 unit entries (one unavailable) but no `floorplan_count` key is not
expanded — the floorplan extraction is gated on `floorplan_count` (line
898), the floorplans list stays empty, and the parse returns none instead
of a Listing with 2 floorplans and 2 available units. -/
theorem claim_C5_counterexample :
    noCountListable.floorplans = some [fpA, fpB] ∧
    noCountListable.units = some [unitA, unitB, unitC] ∧
    noCountListable.floorplan_count = none ∧
    parse_listing_details "t" noCountContent = none :=
  ⟨rfl, rfl, rfl, rfl⟩

/-- Claim C5 (amended): for every PageState whose first listable carries a
`floorplan_count` key together with floorplan entries and unit entries, the
parsed Listing expands every floorplan entry into a Floorplan child and
exactly the units whose availability flag is true into Unit children (each
carrying lease-term bounds and feature/amenity sub-lists, by construction
of `mkUnit`). -/
theorem claim_C5_amended_expansion (now : String) (c : PageContent)
    (cur : Listable) (fps : List FloorplanSrc) (us : List UnitSrc) (l : PyListing)
    (hcur : currentListing c = some cur)
    (hcount : cur.floorplan_count.isSome = true)
    (hfps : cur.floorplans = some fps) (hus : cur.units = some us)
    (h : parse_listing_details now c = some l) :
    l.floorplans = some (fps.map mkFloorplan) ∧
    l.available_units =
      some ((us.filter (fun u => u.is_available.getD false)).map mkUnit) := by
  have hl := parse_some_elim h
  subst hl
  have hext_f : extractedFloorplans c = fps.map mkFloorplan := by
    simp [extractedFloorplans, hcur, hcount, hfps]
  have hext_u : extractedUnits c =
      (us.filter (fun u => u.is_available.getD false)).map mkUnit := by
    simp [extractedUnits, hcur, hus]
  constructor
  · show dropEmptyList (applyFallbacks c (builtListing now c)).floorplans = _
    rw [(applyFallbacks_fields c (builtListing now c)).2.2.2, builtListing_floorplans, hext_f]
    cases hfpe : fps.map mkFloorplan with
    | nil =>
      exfalso
      have hnone := parse_none_of_empty_extracts now c (Or.inr (hext_f.trans hfpe))
      rw [hnone] at h
      exact Option.noConfusion h
    | cons f0 frest => simp [dropEmptyList]
  · show dropEmptyList (applyFallbacks c (builtListing now c)).available_units = _
    rw [(applyFallbacks_fields c (builtListing now c)).2.2.1, builtListing_units, hext_u]
    cases hue : (us.filter (fun u => u.is_available.getD false)).map mkUnit with
    | nil =>
      exfalso
      have hnone := parse_none_of_empty_extracts now c (Or.inl (hext_u.trans hue))
      rw [hnone] at h
      exact Option.noConfusion h
    | cons u0 urest => simp [dropEmptyList]

/-- Witness for the amended C5: the concrete 2-floorplans / 3-units page,
yielding 2 Floorplan children and 2 Unit children. -/
theorem claim_C5_witness :
    parsedOk.floorplans = some ([fpA, fpB].map mkFloorplan) ∧
    parsedOk.available_units =
      some (([unitA, unitB, unitC].filter (fun u => u.is_available.getD false)).map mkUnit) ∧
    ([fpA, fpB].map mkFloorplan).length = 2 ∧
    (([unitA, unitB, unitC].filter (fun u => u.is_available.getD false)).map mkUnit).length = 2 := by
  have h := claim_C5_amended_expansion "2026-10-12 00:00:00" okContent okListable
    [fpA, fpB] [unitA, unitB, unitC] parsedOk rfl rfl rfl rfl rfl
  exact ⟨h.1, h.2, rfl, rfl⟩

/-- Claim C6: a first listable with `max_price = 2500` and
`max_bedrooms = 2` yields a parsed Listing with the string fields
`price = "2500"` and `bedrooms = "2"` (the max-* fields are rendered as
numeric strings by line 889-892). -/
theorem claim_C6_max_field_mapping (now : String) (c : PageContent)
    (cur : Listable) (l : PyListing) (hcur : currentListing c = some cur)
    (hprice : cur.max_price = some 2500) (hbeds : cur.max_bedrooms = some 2)
    (h : parse_listing_details now c = some l) :
    l.price = some "2500" ∧ l.bedrooms = some "2" := by
  have hl := parse_some_elim h
  subst hl
  have hbuilt_p : (builtListing now c).price = some (pyStrInt cur.max_price) := by
    simp [builtListing, hcur]
  have hbuilt_b : (builtListing now c).bedrooms = some (pyStrInt cur.max_bedrooms) := by
    simp [builtListing, hcur]
  constructor
  · show dropEmptyStr (applyFallbacks c (builtListing now c)).price = some "2500"
    rw [(applyFallbacks_fields c (builtListing now c)).1, hbuilt_p, hprice]
    rfl
  · show dropEmptyStr (applyFallbacks c (builtListing now c)).bedrooms = some "2"
    rw [(applyFallbacks_fields c (builtListing now c)).2.1, hbuilt_b, hbeds]
    rfl

/-- Witness for C6 at the concrete page with `max_price = 2500`,
`max_bedrooms = 2`. -/
theorem claim_C6_witness :
    okListable.max_price = some 2500 ∧ okListable.max_bedrooms = some 2 ∧
    parsedOk.price = some "2500" ∧ parsedOk.bedrooms = some "2" :=
  ⟨rfl, rfl,
    claim_C6_max_field_mapping "2026-10-12 00:00:00" okContent okListable parsedOk
      rfl rfl rfl rfl⟩

/-- Counterexample to C3: the browser discovery path accumulates URLs in a
Python `set` and returns `list(listing_urls)` (line 240), whose enumeration
order is unconstrained — under the legitimate set enumeration
`List.reverse` (a permutation of the set's elements) a run that inserts
`urlA` before `urlB` returns them in the opposite of insertion order. -/
theorem claim_C3_counterexample :
    extract_listing_urls List.reverse dupLinks flatHeights none 100 12 =
      some [urlB, urlA] ∧
    (scrollLoopState dupLinks flatHeights none 100 12).urls = [urlA, urlB] ∧
    (List.reverse [urlA, urlB]).Perm [urlA, urlB] ∧
    ([urlB, urlA] : List String) ≠ [urlA, urlB] :=
  ⟨rfl, rfl, List.reverse_perm [urlA, urlB], by decide⟩

/-- Claim C3 (amended): discovery returns the distinct discovered URLs in an
unspecified set-enumeration order — a permutation of the insertion-ordered
set contents, not insertion order itself — and the run coordinator
processes and persists listings in the order of the returned collection,
skipping each failed listing in place without reordering the rest: the
batch is the order-preserving image of exactly the successfully fetched
URLs. -/
theorem claim_C3_amended_order (setOrder : List String → List String)
    (hperm : ∀ l : List String, (setOrder l).Perm l)
    (links : Nat → List (Option String)) (heights : Nat → Int) (h0 : Int)
    (fuel : Nat) (res : List String)
    (hres : extract_listing_urls setOrder links heights none h0 fuel = some res)
    (fetch : String → Option PyListing) (urls : List String) :
    res.Perm (scrollLoopState links heights none h0 fuel).urls ∧
    List.Sublist (urls.filter (fun u => (fetch u).isSome)) urls ∧
    processListings fetch urls =
      (urls.filter (fun u => (fetch u).isSome)).map (fun u => (fetch u).getD noneListing) := by
  refine ⟨?_, List.filter_sublist urls, processListings_eq_filtered fetch urls⟩
  unfold extract_listing_urls at hres
  dsimp only at hres
  split at hres
  · have heq := Option.some.inj hres
    rw [← heq]
    simpa [pyTruncate, limitTruthy] using hperm (scrollLoopState links heights none h0 fuel).urls
  · exact Option.noConfusion hres

/-- Witness for the amended C3: the identity enumeration on a concrete run,
and the 5-URL coordinator run with one failure. -/
theorem claim_C3_witness :
    ([urlA, urlB] : List String).Perm (scrollLoopState dupLinks flatHeights none 100 12).urls ∧
    List.Sublist (fiveUrls.filter (fun u => (oneFailFetch u).isSome)) fiveUrls ∧
    processListings oneFailFetch fiveUrls =
      (fiveUrls.filter (fun u => (oneFailFetch u).isSome)).map
        (fun u => (oneFailFetch u).getD noneListing) :=
  claim_C3_amended_order id (fun l => List.Perm.refl l) dupLinks flatHeights 100 12
    [urlA, urlB] rfl oneFailFetch fiveUrls

/-- Claim C7: whatever the anchors (duplicate hrefs included), the URL
collection returned by discovery contains each distinct absolute listing
URL exactly once, on both the browser path (set insertion, lines 171-200)
and the HTTP fallback path (`list(set(...))`, line 574). -/
theorem claim_C7_discovery_dedup (setOrder : List String → List String)
    (hperm : ∀ l : List String, (setOrder l).Perm l)
    (links : Nat → List (Option String)) (heights : Nat → Int)
    (limit : Option Nat) (h0 : Int) (fuel : Nat) (res : List String)
    (hres : extract_listing_urls setOrder links heights limit h0 fuel = some res)
    (anchors : List (Option String)) (limit2 : Option Nat) :
    res.Nodup ∧ (∀ u ∈ res, res.count u = 1) ∧
    (get_listing_urls_fallback setOrder anchors limit2).Nodup ∧
    (∀ u ∈ get_listing_urls_fallback setOrder anchors limit2,
      (get_listing_urls_fallback setOrder anchors limit2).count u = 1) := by
  have hstate : (scrollLoopState links heights limit h0 fuel).urls.Nodup :=
    scrollLoopAux_nodup links heights limit fuel 0 _ List.nodup_nil
  have hres_nodup : res.Nodup := by
    unfold extract_listing_urls at hres
    dsimp only at hres
    split at hres
    · have heq := Option.some.inj hres
      rw [← heq]
      have hso : (setOrder (scrollLoopState links heights limit h0 fuel).urls).Nodup :=
        (hperm _).nodup_iff.mpr hstate
      unfold pyTruncate
      split
      · exact hso.sublist (List.take_sublist _ _)
      · exact hso
    · exact Option.noConfusion hres
  have hfb : (get_listing_urls_fallback setOrder anchors limit2).Nodup := by
    have hd : (dedupList (fallbackHrefUrls anchors)).Nodup :=
      nodup_insertUrls (fallbackHrefUrls anchors) [] List.nodup_nil
    have hso : (setOrder (dedupList (fallbackHrefUrls anchors))).Nodup :=
      (hperm _).nodup_iff.mpr hd
    unfold get_listing_urls_fallback pyTruncate
    split
    · exact hso.sublist (List.take_sublist _ _)
    · exact hso
  exact ⟨hres_nodup, fun u hu => List.count_eq_one_of_mem hres_nodup hu, hfb,
    fun u hu => List.count_eq_one_of_mem hfb hu⟩

/-- Witness for C7: a browser run whose every iteration serves a duplicated
anchor, and a fallback page with duplicated anchors. -/
theorem claim_C7_witness :
    ([urlA, urlB] : List String).Nodup ∧
    ([urlA, urlB] : List String).count urlA = 1 ∧
    (get_listing_urls_fallback id dupAnchors none).Nodup ∧
    (get_listing_urls_fallback id dupAnchors none).count
      "https://www.padmapper.com/apartments/x" = 1 := by
  have h := claim_C7_discovery_dedup id (fun l => List.Perm.refl l) dupLinks flatHeights
    none 100 12 [urlA, urlB] rfl dupAnchors none
  exact ⟨h.1, h.2.1 urlA (by decide), h.2.2.1, h.2.2.2 _ (by decide)⟩

/-- Counterexample to C8: with `limit = 0` the fallback discovery applies no
truncation (`if limit:` is false for 0, line 577) and returns 1 URL from a
page with one matching anchor, exceeding the limit. -/
theorem claim_C8_counterexample :
    (get_listing_urls_fallback id [some "/apartments/x"] (some 0)).length = 1 ∧
    ¬ ((get_listing_urls_fallback id [some "/apartments/x"] (some 0)).length ≤ 0) :=
  ⟨rfl, by decide⟩

/-- Claim C8 (amended): for every N ≥ 1 the number of URLs returned by
discovery (browser or fallback) is at most N, and the number of listings in
the final persisted batch of a run over at most N URLs is at most N; with
`limit = 0` the fallback path skips truncation because 0 is falsy. -/
theorem claim_C8_amended_limit_bound (N : Nat) (hN : 1 ≤ N)
    (setOrder : List String → List String)
    (links : Nat → List (Option String)) (heights : Nat → Int) (h0 : Int)
    (fuel : Nat) (res : List String)
    (hres : extract_listing_urls setOrder links heights (some N) h0 fuel = some res)
    (anchors : List (Option String))
    (urls : List String) (hurls : urls.length ≤ N)
    (fetch : String → Option PyListing) :
    res.length ≤ N ∧
    (get_listing_urls_fallback setOrder anchors (some N)).length ≤ N ∧
    (mainRun urls fetch).2.length ≤ N := by
  have htrunc : ∀ l : List String, (pyTruncate (some N) l).length ≤ N := by
    intro l
    unfold pyTruncate
    have hT : limitTruthy (some N) = true := by
      unfold limitTruthy
      simp
      omega
    rw [hT]
    simp [List.length_take]
  refine ⟨?_, ?_, ?_⟩
  · unfold extract_listing_urls at hres
    dsimp only at hres
    split at hres
    · rw [← Option.some.inj hres]
      exact htrunc _
    · exact Option.noConfusion hres
  · unfold get_listing_urls_fallback
    exact htrunc _
  · have hadd := processListings_length_add fetch urls
    unfold mainRun
    split
    · simp
    · show (processListings fetch urls).length ≤ N
      omega

/-- Witness for the amended C8 at N = 1. -/
theorem claim_C8_witness :
    ([urlA] : List String).length ≤ 1 ∧
    (get_listing_urls_fallback id dupAnchors (some 1)).length ≤ 1 ∧
    (mainRun ["u1"] oneFailFetch).2.length ≤ 1 :=
  claim_C8_amended_limit_bound 1 (by decide) id
    dupLinks flatHeights 100 12 [urlA] rfl dupAnchors ["u1"] (by decide) oneFailFetch

/-- Claim C9: content containing a known protection indicator (here the
vendor token `cloudflare` in the lower-cased source) makes the protection
detector return true, and a browser fetch whose every attempt loads but is
detected as protected runs exactly its maximum of 3 attempts, sleeping
between attempts with waits of `1 * 5` and `2 * 5` seconds (attempt index
times the base delay), and reports failure by returning none — the raised
exception is caught inside `extract_listing_details`. -/
theorem claim_C9_protection_retries (p : DetailPage)
    (hsrc : strContains (strToLower p.source) "cloudflare" = true)
    (now : String) (pages : Nat → DetailPage)
    (hload : ∀ i, (pages i).loadTimedOut = false)
    (hprot : ∀ i, is_protected_page (pages i) = true) :
    is_protected_page p = true ∧
    (extract_listing_details now pages).attemptsMade = 3 ∧
    (extract_listing_details now pages).retrySleeps = [1 * 5, 2 * 5] ∧
    (extract_listing_details now pages).result = none := by
  have hdet : is_protected_page p = true := by
    unfold is_protected_page
    split
    · rfl
    · simp [hsrc]
  have estep : ∀ (rem attempt : Nat) (sleeps : List Nat), attempt < 2 →
      fetchAux now pages (rem + 1) attempt sleeps =
        fetchAux now pages rem (attempt + 1) (sleeps ++ [(attempt + 1) * 5]) := by
    intro rem attempt sleeps hlt
    simp only [fetchAux]
    rw [hload attempt]
    simp [hprot attempt, hlt]
  have elast : ∀ (rem : Nat) (sleeps : List Nat),
      fetchAux now pages (rem + 1) 2 sleeps =
        { attemptsMade := 3, retrySleeps := sleeps, result := none } := by
    intro rem sleeps
    simp only [fetchAux]
    rw [hload 2]
    simp [hprot 2]
  have hrun : extract_listing_details now pages =
      { attemptsMade := 3, retrySleeps := [1 * 5, 2 * 5], result := none } := by
    show fetchAux now pages 3 0 [] = _
    have s1 := estep 2 0 [] (by omega)
    have s2 := estep 1 1 [0 + 1 * 5] (by omega)
    have s3 := elast 0 [0 + 1 * 5, 5 + 2 * 5 - 5]
    calc fetchAux now pages 3 0 []
        = fetchAux now pages 2 1 ([] ++ [(0 + 1) * 5]) := s1
      _ = fetchAux now pages 1 2 ([0 + 1 * 5] ++ [(1 + 1) * 5]) := s2
      _ = { attemptsMade := 3, retrySleeps := [0 + 1 * 5, 5 + 2 * 5 - 5], result := none } := s3
      _ = { attemptsMade := 3, retrySleeps := [1 * 5, 2 * 5], result := none } := by norm_num
  exact ⟨hdet, by rw [hrun], by rw [hrun], by rw [hrun]⟩

/-- Witness for C9: every attempt observes a page whose source mentions
Cloudflare. -/
theorem claim_C9_witness :
    is_protected_page protPage = true ∧
    (extract_listing_details "t" (fun _ => protPage)).attemptsMade = 3 ∧
    (extract_listing_details "t" (fun _ => protPage)).retrySleeps = [1 * 5, 2 * 5] ∧
    (extract_listing_details "t" (fun _ => protPage)).result = none := by
  have hsrc : strContains (strToLower protPage.source) "cloudflare" = true := by decide
  have hp : is_protected_page protPage = true := by decide
  exact claim_C9_protection_retries protPage hsrc "t" (fun _ => protPage)
    (fun _ => rfl) (fun _ => hp)

/-- Counterexample to C10: the scroll loop has no absolute iteration
ceiling independent of the stall counter — with no limit and a document
height that grows every iteration, no pass count ever ends the loop
(`max_scroll_attempts` only bounds consecutive stalls and is reset by
growth, line 216). -/
theorem claim_C10_counterexample : ¬ scrollLoopAbsoluteCeiling := by
  rintro ⟨C, hC⟩
  have h1 := hC (fun _ => []) (fun j => (j : Int) + 1) 0
  have h2 := growLoop_runs C 0 0 (by norm_num)
  unfold scrollLoopState at h1
  rw [h1] at h2
  exact Bool.noConfusion h2

/-- Claim C10 (amended): in each scroll pass of a running loop, an
unchanged document height increments the stall counter and a grown height
resets it to zero; the pass ends the loop exactly when the stall counter
reaches the ceiling of 10 or the (truthy) requested limit is reached by
the URL set — there is no further, stall-independent iteration ceiling. -/
theorem claim_C10_amended_stall_behavior (anchors : List (Option String))
    (h : Int) (limit : Option Nat) (s : ScrollState)
    (hrun : s.stopped = false)
    (hcond : whileCond limit s.urls.length s.attempts = true) :
    ((h = s.prevHeight → (scrollStep anchors h limit s).attempts = s.attempts + 1) ∧
     (h ≠ s.prevHeight → (scrollStep anchors h limit s).attempts = 0)) ∧
    ((scrollStep anchors h limit s).stopped = true ↔
      ((h = s.prevHeight ∧ 10 ≤ s.attempts + 1) ∨
       (limitTruthy limit = true ∧
         limit.getD 0 ≤ (insertUrls s.urls (browserHrefUrls anchors)).length))) := by
  by_cases hh : h = s.prevHeight
  · by_cases h10 : 10 ≤ s.attempts + 1
    · have hstep : scrollStep anchors h limit s =
          { urls := insertUrls s.urls (browserHrefUrls anchors),
            prevHeight := s.prevHeight, attempts := s.attempts + 1, stopped := true } := by
        unfold scrollStep
        rw [hrun, hcond]
        simp [hh, ge_iff_le, h10]
      rw [hstep]
      exact ⟨⟨fun _ => rfl, fun hne => absurd hh hne⟩, by simp [hh, h10]⟩
    · have hstep : scrollStep anchors h limit s =
          { urls := insertUrls s.urls (browserHrefUrls anchors),
            prevHeight := s.prevHeight, attempts := s.attempts + 1,
            stopped := limitTruthy limit &&
              (match limit with
               | some l => decide ((insertUrls s.urls (browserHrefUrls anchors)).length ≥ l)
               | none => false) } := by
        unfold scrollStep
        rw [hrun, hcond]
        simp [hh, ge_iff_le, h10]
        cases limit <;> rfl
      rw [hstep]
      refine ⟨⟨fun _ => rfl, fun hne => absurd hh hne⟩, ?_⟩
      cases limit with
      | none => simp [limitTruthy, h10]
      | some L => simp [limitTruthy, h10, ge_iff_le, Bool.and_eq_true, decide_eq_true_eq]
  · have hstep : scrollStep anchors h limit s =
        { urls := insertUrls s.urls (browserHrefUrls anchors),
          prevHeight := h, attempts := 0,
          stopped := limitTruthy limit &&
            (match limit with
             | some l => decide ((insertUrls s.urls (browserHrefUrls anchors)).length ≥ l)
             | none => false) } := by
      unfold scrollStep
      rw [hrun, hcond]
      simp [hh]
      cases limit <;> rfl
    rw [hstep]
    refine ⟨⟨fun heq => absurd heq hh, fun _ => rfl⟩, ?_⟩
    cases limit with
    | none => simp [limitTruthy, hh]
    | some L => simp [limitTruthy, hh, ge_iff_le, Bool.and_eq_true, decide_eq_true_eq]

/-- Witness for the amended C10: a running mid-loop state with stall
counter 3 observing an unchanged height. -/
theorem claim_C10_witness :
    (scrollStep [] 100 none stallState).attempts = stallState.attempts + 1 ∧
    (scrollStep [] 100 none stallState).stopped = false :=
  ⟨(claim_C10_amended_stall_behavior [] 100 none stallState rfl (by decide)).1.1 rfl,
    by decide⟩

end Scraper
